import Mathlib

/-
Verification development for the argument-marshalling and shielded-transaction
authorization layer (packages/shared/lib/src/sdk/args.rs).

The Rust source is shallowly embedded as executable Lean definitions:
  - binary payloads are lists of byte values (Nat), decoded by a model of the
    borsh wire format (little-endian u32 length prefixes, one-byte option tags,
    strict UTF-8 validation of strings, whole-input consumption);
  - the external domain parsers (Address, PaymentAddress, DenominatedAmount,
    PublicKey, GasLimit, PseudoExtendedKey) are opaque collaborators in the
    source, so they are passed in as an explicit Externals record of functions;
  - Rust panics (expect / unwrap / out-of-bounds indexing) are a distinguished
    Outcome constructor, separate from errors returned to the caller;
  - console logging calls are made explicit as a returned list of log entries.
-/

namespace ArgsModel

/-! ## Bytes and borsh-format readers -/

/-- A borsh reader consumes a prefix of the byte list and yields a value plus
the remaining bytes, or fails. -/
abbrev Reader (α : Type) := List Nat → Option (α × List Nat)

/-- Read one byte. -/
def readU8 : Reader Nat
  | b :: rest => some (b, rest)
  | [] => none

/-- Read a little-endian u32. -/
def readU32 : Reader Nat
  | b0 :: b1 :: b2 :: b3 :: rest =>
      some (b0 + 256 * b1 + 65536 * b2 + 16777216 * b3, rest)
  | _ => none

/-- Read a fixed number of raw bytes. -/
def readChunk : Nat → List Nat → Option (List Nat × List Nat)
  | 0, l => some ([], l)
  | _ + 1, [] => none
  | n + 1, b :: l =>
      match readChunk n l with
      | some (bs, rest) => some (b :: bs, rest)
      | none => none

/-- Continuation byte of a multi-byte UTF-8 sequence. -/
def isUtf8Cont (b : Nat) : Bool := 128 ≤ b && b ≤ 191

/-- Strict UTF-8 validation (the check Rust string deserialization performs),
written with explicit fuel so that it reduces by kernel computation. -/
def validUtf8Fuel : Nat → List Nat → Bool
  | _, [] => true
  | 0, _ :: _ => false
  | f + 1, b :: rest =>
      if b ≤ 127 then validUtf8Fuel f rest
      else if 194 ≤ b && b ≤ 223 then
        match rest with
        | c1 :: r => isUtf8Cont c1 && validUtf8Fuel f r
        | [] => false
      else if b == 224 then
        match rest with
        | c1 :: c2 :: r => (160 ≤ c1 && c1 ≤ 191) && isUtf8Cont c2 && validUtf8Fuel f r
        | _ => false
      else if 225 ≤ b && b ≤ 236 then
        match rest with
        | c1 :: c2 :: r => isUtf8Cont c1 && isUtf8Cont c2 && validUtf8Fuel f r
        | _ => false
      else if b == 237 then
        match rest with
        | c1 :: c2 :: r => (128 ≤ c1 && c1 ≤ 159) && isUtf8Cont c2 && validUtf8Fuel f r
        | _ => false
      else if 238 ≤ b && b ≤ 239 then
        match rest with
        | c1 :: c2 :: r => isUtf8Cont c1 && isUtf8Cont c2 && validUtf8Fuel f r
        | _ => false
      else if b == 240 then
        match rest with
        | c1 :: c2 :: c3 :: r =>
            (144 ≤ c1 && c1 ≤ 191) && isUtf8Cont c2 && isUtf8Cont c3 && validUtf8Fuel f r
        | _ => false
      else if 241 ≤ b && b ≤ 243 then
        match rest with
        | c1 :: c2 :: c3 :: r =>
            isUtf8Cont c1 && isUtf8Cont c2 && isUtf8Cont c3 && validUtf8Fuel f r
        | _ => false
      else if b == 244 then
        match rest with
        | c1 :: c2 :: c3 :: r =>
            (128 ≤ c1 && c1 ≤ 143) && isUtf8Cont c2 && isUtf8Cont c3 && validUtf8Fuel f r
        | _ => false
      else false

/-- A Rust String in borsh: u32 byte length, then that many bytes which must
form valid UTF-8. The decoded value is kept as its byte list. -/
def readString : Reader (List Nat) := fun l =>
  match readU32 l with
  | none => none
  | some (n, l2) =>
      match readChunk n l2 with
      | none => none
      | some (s, rest) => if validUtf8Fuel s.length s then some (s, rest) else none

/-- Read exactly n elements with a given element reader. -/
def readN {α : Type} (p : Reader α) : Nat → List Nat → Option (List α × List Nat)
  | 0, l => some ([], l)
  | n + 1, l =>
      match p l with
      | none => none
      | some (a, l2) =>
          match readN p n l2 with
          | none => none
          | some (as2, l3) => some (a :: as2, l3)

/-- A borsh Vec: u32 element count, then the elements. -/
def readVec {α : Type} (p : Reader α) : Reader (List α) := fun l =>
  match readU32 l with
  | none => none
  | some (n, l2) => readN p n l2

/-- A borsh Option: one tag byte, 0 for absent, 1 followed by the payload. -/
def readOpt {α : Type} (p : Reader α) : Reader (Option α) := fun l =>
  match readU8 l with
  | none => none
  | some (0, r) => some (none, r)
  | some (1, r) =>
      match p r with
      | none => none
      | some (a, r2) => some (some a, r2)
  | some (_ + 2, _) => none

/-- Model of borsh try_from_slice: run the reader and require that the whole
input is consumed. -/
def tryFromSlice {α : Type} (p : Reader α) (l : List Nat) : Option α :=
  match p l with
  | some (a, []) => some a
  | _ => none

/-! ## Opaque domain values and the external parsers

Address, amount, chain-identifier and key parsing are out-of-scope external
collaborators in the source, consumed as opaque parse functions.  They are
modelled as wrapper types with abstract identities, and the parse functions are
supplied explicitly in an Externals record. -/

/-- An already-validated Namada address (opaque). -/
structure Address where
  ident : Nat
deriving DecidableEq

/-- An already-validated shielded payment address (opaque). -/
structure PaymentAddr where
  ident : Nat
deriving DecidableEq

/-- An already-validated denominated token amount (opaque). -/
structure DenomAmount where
  ident : Nat
deriving DecidableEq

/-- An already-validated public key (opaque). -/
structure PublicKey where
  ident : Nat
deriving DecidableEq

/-- An already-validated gas limit (opaque). -/
structure GasLimitVal where
  ident : Nat
deriving DecidableEq

/-- InputAmount as produced by the decoders: always the Unvalidated variant. -/
inductive InputAmount
  | unvalidated (d : DenomAmount)
deriving DecidableEq

/-- A PseudoExtendedKey: a viewing component plus an optional spend-authorizing
key slot that augment_spend_authorizing_key_unchecked fills in. -/
structure PseudoExtendedKey where
  viewKey : Nat
  askSlot : Option Nat
deriving DecidableEq

/-- Model of PseudoExtendedKey.augment_spend_authorizing_key_unchecked: store
the given scalar in the spend-authorizing slot. -/
def augmentSpendAuthorizingKeyUnchecked (k : PseudoExtendedKey) (v : Nat) :
    PseudoExtendedKey :=
  { k with askSlot := some v }

/-- The neutral scalar jubjub Fr default used at decode time. -/
def frDefault : Nat := 0

/-- The external domain parsers the layer consumes as opaque collaborators. -/
structure Externals where
  addressFromStr : List Nat → Option Address
  paymentAddressFromStr : List Nat → Option PaymentAddr
  denomAmountFromStr : List Nat → Option DenomAmount
  publicKeyFromStr : List Nat → Option PublicKey
  gasLimitFromStr : List Nat → Option GasLimitVal
  pseudoKeyFromSlice : List Nat → Option PseudoExtendedKey

/-! ## Outcomes: returned errors versus panics

In the source every returned error is a JsError; the model distinguishes its
provenance: decodeErr for a failed borsh deserialization, invalidValue for a
domain parser failing on a decoded field.  Panics (expect / unwrap /
out-of-bounds indexing) abort instead of returning and are recorded with the
site that raised them. -/

/-- The expect / unwrap / indexing sites of the source that can panic. -/
inductive PanicReason
  | amountInvalid
  | feeAmountInvalid (s : List Nat)
  | gasLimitInvalid
  | claimSourceInvalid
  | missingMaspSection
  | missingMaspBuilder
  | indexOutOfBounds
deriving DecidableEq

/-- Result of running a decoder: a value, a returned decode error, a returned
domain-validation error, or a panic. -/
inductive Outcome (α : Type)
  | ok (a : α)
  | decodeErr
  | invalidValue
  | panics (r : PanicReason)
deriving DecidableEq

/-! ## Message structs (borsh wire format) -/

/-- WrapperTxMsg: the common envelope payload. -/
structure WrapperTxMsg where
  token : List Nat
  fee_amount : List Nat
  gas_limit : List Nat
  chain_id : List Nat
  public_key : Option (List Nat)
  memo : Option (List Nat)
deriving DecidableEq

/-- Borsh reader for WrapperTxMsg, field order as declared in the source. -/
def readWrapperTxMsg : Reader WrapperTxMsg := fun l =>
  match readString l with
  | none => none
  | some (token, l1) =>
  match readString l1 with
  | none => none
  | some (fee_amount, l2) =>
  match readString l2 with
  | none => none
  | some (gas_limit, l3) =>
  match readString l3 with
  | none => none
  | some (chain_id, l4) =>
  match readOpt readString l4 with
  | none => none
  | some (public_key, l5) =>
  match readOpt readString l5 with
  | none => none
  | some (memo, l6) => some (⟨token, fee_amount, gas_limit, chain_id, public_key, memo⟩, l6)

/-- TransparentTransferDataMsg: one transparent transfer leg. -/
structure TransparentTransferDataMsg where
  source : List Nat
  target : List Nat
  token : List Nat
  amount : List Nat
deriving DecidableEq

/-- Borsh reader for TransparentTransferDataMsg. -/
def readTransparentTransferDataMsg : Reader TransparentTransferDataMsg := fun l =>
  match readString l with
  | none => none
  | some (source, l1) =>
  match readString l1 with
  | none => none
  | some (target, l2) =>
  match readString l2 with
  | none => none
  | some (token, l3) =>
  match readString l3 with
  | none => none
  | some (amount, l4) => some (⟨source, target, token, amount⟩, l4)

/-- TransparentTransferMsg: a sequence of transparent transfer legs. -/
structure TransparentTransferMsg where
  data : List TransparentTransferDataMsg
deriving DecidableEq

/-- Borsh reader for TransparentTransferMsg. -/
def readTransparentTransferMsg : Reader TransparentTransferMsg := fun l =>
  match readVec readTransparentTransferDataMsg l with
  | none => none
  | some (data, l1) => some (⟨data⟩, l1)

/-- ClaimRewardsMsg: validator plus optional source. -/
structure ClaimRewardsMsg where
  validator : List Nat
  source : Option (List Nat)
deriving DecidableEq

/-- Borsh reader for ClaimRewardsMsg. -/
def readClaimRewardsMsg : Reader ClaimRewardsMsg := fun l =>
  match readString l with
  | none => none
  | some (validator, l1) =>
  match readOpt readString l1 with
  | none => none
  | some (source, l2) => some (⟨validator, source⟩, l2)

/-- ShieldedTransferDataMsg: one shielded transfer leg; the source is raw key
bytes (borsh Vec of u8). -/
structure ShieldedTransferDataMsg where
  source : List Nat
  target : List Nat
  token : List Nat
  amount : List Nat
deriving DecidableEq

/-- Borsh reader for ShieldedTransferDataMsg. -/
def readShieldedTransferDataMsg : Reader ShieldedTransferDataMsg := fun l =>
  match readVec readU8 l with
  | none => none
  | some (source, l1) =>
  match readString l1 with
  | none => none
  | some (target, l2) =>
  match readString l2 with
  | none => none
  | some (token, l3) =>
  match readString l3 with
  | none => none
  | some (amount, l4) => some (⟨source, target, token, amount⟩, l4)

/-- ShieldedTransferMsg: legs plus gas spending keys as raw byte vectors. -/
structure ShieldedTransferMsg where
  data : List ShieldedTransferDataMsg
  gas_spending_keys : List (List Nat)
deriving DecidableEq

/-- Borsh reader for ShieldedTransferMsg. -/
def readShieldedTransferMsg : Reader ShieldedTransferMsg := fun l =>
  match readVec readShieldedTransferDataMsg l with
  | none => none
  | some (data, l1) =>
  match readVec (readVec readU8) l1 with
  | none => none
  | some (gsk, l2) => some (⟨data, gsk⟩, l2)

/-- UnshieldingTransferDataMsg: one unshielding transfer leg. -/
structure UnshieldingTransferDataMsg where
  target : List Nat
  token : List Nat
  amount : List Nat
deriving DecidableEq

/-- Borsh reader for UnshieldingTransferDataMsg. -/
def readUnshieldingTransferDataMsg : Reader UnshieldingTransferDataMsg := fun l =>
  match readString l with
  | none => none
  | some (target, l1) =>
  match readString l1 with
  | none => none
  | some (token, l2) =>
  match readString l2 with
  | none => none
  | some (amount, l3) => some (⟨target, token, amount⟩, l3)

/-- UnshieldingTransferMsg: raw source key bytes, legs, gas spending keys. -/
structure UnshieldingTransferMsg where
  source : List Nat
  data : List UnshieldingTransferDataMsg
  gas_spending_keys : List (List Nat)
deriving DecidableEq

/-- Borsh reader for UnshieldingTransferMsg. -/
def readUnshieldingTransferMsg : Reader UnshieldingTransferMsg := fun l =>
  match readVec readU8 l with
  | none => none
  | some (source, l1) =>
  match readVec readUnshieldingTransferDataMsg l1 with
  | none => none
  | some (data, l2) =>
  match readVec (readVec readU8) l2 with
  | none => none
  | some (gsk, l3) => some (⟨source, data, gsk⟩, l3)

/-! ## The Common Envelope Builder: tx_msg_into_args -/

/-- TxExpiration as set by the builder. -/
inductive TxExpirationVal
  | default
deriving DecidableEq

/-- The transaction-wide argument set args::Tx, with the fields the builder
populates; constant fields keep the constant values the source assigns. -/
structure TxArgs where
  dry_run : Bool
  dry_run_wrapper : Bool
  dump_tx : Bool
  force : Bool
  broadcast_only : Bool
  ledger_address : String
  wallet_alias_force : Bool
  initialized_account_alias : Option String
  fee_amount : Option InputAmount
  fee_token : Address
  gas_limit : GasLimitVal
  wrapper_fee_payer : Option Address
  output_folder : Option String
  expiration : TxExpirationVal
  chain_id : Option (List Nat)
  signatures : List (List Nat)
  signing_keys : List PublicKey
  tx_reveal_code_path : String
  use_device : Bool
  password : Option String
  memo : Option (List Nat)
deriving DecidableEq

/-- The tail of tx_msg_into_args: parse the gas limit with expect (panic on
failure) and assemble the args::Tx literal the source builds, with the
constant fields it assigns. -/
def finishTxArgs (E : Externals) (m : WrapperTxMsg) (token : Address)
    (fee : DenomAmount) (signing_keys : List PublicKey) : Outcome TxArgs :=
  match E.gasLimitFromStr m.gas_limit with
  | none => .panics .gasLimitInvalid
  | some gl =>
    .ok
      { dry_run := false
        dry_run_wrapper := false
        dump_tx := false
        force := false
        broadcast_only := false
        ledger_address := "http://notinuse:13337"
        wallet_alias_force := false
        initialized_account_alias := none
        fee_amount := some (InputAmount.unvalidated fee)
        fee_token := token
        gas_limit := gl
        wrapper_fee_payer := none
        output_folder := none
        expiration := .default
        chain_id := some m.chain_id
        signatures := []
        signing_keys := signing_keys
        tx_reveal_code_path := "tx_reveal_pk.wasm"
        use_device := false
        password := none
        memo := m.memo }

/-- Model of tx_msg_into_args (continued): decode the envelope payload, parse
the fee token address and the optional public key with the question-mark
operator, project the key into the signer-key list, and assemble the args. -/
def tx_msg_into_args (E : Externals) (tx_msg : List Nat) : Outcome TxArgs :=
  match tryFromSlice readWrapperTxMsg tx_msg with
  | none => .decodeErr
  | some m =>
    match E.addressFromStr m.token with
    | none => .invalidValue
    | some token =>
      match E.denomAmountFromStr m.fee_amount with
      | none => .panics (.feeAmountInvalid m.fee_amount)
      | some fee =>
        match m.public_key with
        | some v =>
          match E.publicKeyFromStr v with
          | none => .invalidValue
          | some pk => finishTxArgs E m token fee [pk]
        | none => finishTxArgs E m token fee []

/-! ## Typed Argument Decoders -/

/-- One decoded transparent transfer leg (args::TxTransparentTransferData). -/
structure TxTransparentTransferData where
  source : Address
  target : Address
  token : Address
  amount : InputAmount
deriving DecidableEq

/-- args::TxTransparentTransfer. -/
structure TxTransparentTransfer where
  tx : TxArgs
  data : List TxTransparentTransferData
  tx_code_path : String
deriving DecidableEq

/-- The per-leg loop of transparent_transfer_tx_args: the three addresses are
parsed with the question-mark operator (returned error), the amount with
expect (panic). -/
def decodeTransparentData (E : Externals) :
    List TransparentTransferDataMsg → Outcome (List TxTransparentTransferData)
  | [] => .ok []
  | t :: rest =>
    match E.addressFromStr t.source with
    | none => .invalidValue
    | some source =>
    match E.addressFromStr t.target with
    | none => .invalidValue
    | some target =>
    match E.addressFromStr t.token with
    | none => .invalidValue
    | some token =>
    match E.denomAmountFromStr t.amount with
    | none => .panics .amountInvalid
    | some d =>
      match decodeTransparentData E rest with
      | .ok ds => .ok (⟨source, target, token, .unvalidated d⟩ :: ds)
      | .decodeErr => .decodeErr
      | .invalidValue => .invalidValue
      | .panics r => .panics r

/-- Model of transparent_transfer_tx_args: decode the kind payload, run the
per-leg loop, then build the envelope. -/
def transparent_transfer_tx_args (E : Externals) (transfer_msg tx_msg : List Nat) :
    Outcome TxTransparentTransfer :=
  match tryFromSlice readTransparentTransferMsg transfer_msg with
  | none => .decodeErr
  | some msg =>
    match decodeTransparentData E msg.data with
    | .ok data =>
      match tx_msg_into_args E tx_msg with
      | .ok tx => .ok ⟨tx, data, "tx_transfer.wasm"⟩
      | .decodeErr => .decodeErr
      | .invalidValue => .invalidValue
      | .panics r => .panics r
    | .decodeErr => .decodeErr
    | .invalidValue => .invalidValue
    | .panics r => .panics r

/-- args::ClaimRewards. -/
structure ClaimRewards where
  tx : TxArgs
  validator : Address
  source : Option Address
  tx_code_path : String
deriving DecidableEq

/-- Model of claim_rewards_tx_args: the envelope is built first, then the
validator address is parsed with the question-mark operator, and a present
source address is parsed inside Option.map with expect (panic on failure). -/
def claim_rewards_tx_args (E : Externals) (claim_rewards_msg tx_msg : List Nat) :
    Outcome ClaimRewards :=
  match tryFromSlice readClaimRewardsMsg claim_rewards_msg with
  | none => .decodeErr
  | some m =>
    match tx_msg_into_args E tx_msg with
    | .ok tx =>
      match E.addressFromStr m.validator with
      | none => .invalidValue
      | some validator_address =>
        match m.source with
        | none => .ok ⟨tx, validator_address, none, "tx_claim_rewards.wasm"⟩
        | some s =>
          match E.addressFromStr s with
          | none => .panics .claimSourceInvalid
          | some a => .ok ⟨tx, validator_address, some a, "tx_claim_rewards.wasm"⟩
    | .decodeErr => .decodeErr
    | .invalidValue => .invalidValue
    | .panics r => .panics r

/-! ## MASP transaction model

The shielded bundle is modelled structurally: spend descriptors carry an opaque
proof and a signature slot; the digest over the canonical deauthorized form is
a function of the signature-free content. -/

/-- The per-input signing hash: a function of the deauthorized transaction
content (spend proofs plus the rest of the transaction), signature-free. -/
structure SigHash where
  spendProofs : List Nat
  txRest : Nat
deriving DecidableEq

/-- Provenance of the spend-authorizing secret scalar a signature was computed
from.  The source only ever derives it from an extended-spending-key string. -/
inductive AskSource
  | fromXskString (s : String)
deriving DecidableEq

/-- A spend-authorization signature value: either a placeholder left by
construction, or a signature recorded with its determinants (the key scalar
source, the blinding factor alpha, and the message hash). -/
inductive SpendSignature
  | placeholder (n : Nat)
  | spendSigOf (ask : AskSource) (alpha : Nat) (sighash : SigHash)
deriving DecidableEq

/-- One sapling spend descriptor: a proof and its authorization signature. -/
structure SpendDescription where
  proof : Nat
  spendAuthSig : SpendSignature
deriving DecidableEq

/-- A MASP transaction: sapling spends, the bundle-level authorization value,
and the rest of the transaction content (outputs, value balance, ...). -/
structure MaspTransaction where
  spends : List SpendDescription
  bundleAuth : Nat
  rest : Nat
deriving DecidableEq

/-- Model of partial deauthorization: strip every spend authorization
signature and the bundle-level authorization, leaving proofs and the rest of
the content untouched. -/
def deauthorize (t : MaspTransaction) : MaspTransaction :=
  { spends := t.spends.map fun s => { s with spendAuthSig := .placeholder 0 }
    bundleAuth := 0
    rest := t.rest }

/-- Model of the txid digest plus signature_hash for the shielded signable
input: a deterministic function of the signature-free content. -/
def signatureHash (t : MaspTransaction) : SigHash :=
  ⟨t.spends.map SpendDescription.proof, t.rest⟩

/-! ## Console logging

The source calls web_sys console logging in the shielded transfer decoder and
in masp_sign; each call is recorded as an explicit log entry. -/

/-- One console log call of the layer. -/
inductive LogEntry
  | sourceKey (k : PseudoExtendedKey)
  | xskDebug (s : String)
  | maspTxOld (m : MaspTransaction)
deriving DecidableEq

/-! ## Shielded and unshielding transfer decoders -/

/-- One decoded shielded transfer leg (args::TxShieldedTransferData). -/
structure TxShieldedTransferData where
  source : PseudoExtendedKey
  target : PaymentAddr
  token : Address
  amount : InputAmount
deriving DecidableEq

/-- args::TxShieldedTransfer. -/
structure TxShieldedTransfer where
  data : List TxShieldedTransferData
  tx : TxArgs
  tx_code_path : String
  disposable_signing_key : Bool
  gas_spending_keys : List PseudoExtendedKey
deriving DecidableEq

/-- The per-leg loop of shielded_transfer_tx_args: deserialize the source key,
augment it with the neutral default scalar, log it to the console, then parse
target, token and amount (amount with expect).  The second component collects
the console log entries emitted before the loop stopped. -/
def decodeShieldedData (E : Externals) :
    List ShieldedTransferDataMsg →
      Outcome (List TxShieldedTransferData) × List LogEntry
  | [] => (.ok [], [])
  | s :: rest =>
    match E.pseudoKeyFromSlice s.source with
    | none => (.invalidValue, [])
    | some src0 =>
      let source := augmentSpendAuthorizingKeyUnchecked src0 frDefault
      let lg := [LogEntry.sourceKey source]
      match E.paymentAddressFromStr s.target with
      | none => (.invalidValue, lg)
      | some target =>
      match E.addressFromStr s.token with
      | none => (.invalidValue, lg)
      | some token =>
      match E.denomAmountFromStr s.amount with
      | none => (.panics .amountInvalid, lg)
      | some d =>
        match decodeShieldedData E rest with
        | (.ok ds, lg2) => (.ok (⟨source, target, token, .unvalidated d⟩ :: ds), lg ++ lg2)
        | (.decodeErr, lg2) => (.decodeErr, lg ++ lg2)
        | (.invalidValue, lg2) => (.invalidValue, lg ++ lg2)
        | (.panics r, lg2) => (.panics r, lg ++ lg2)

/-- The gas-spending-key loop of shielded_transfer_tx_args: each raw byte
vector is deserialized into a PseudoExtendedKey with the question-mark
operator. -/
def decodeGasSpendingKeys (E : Externals) :
    List (List Nat) → Outcome (List PseudoExtendedKey)
  | [] => .ok []
  | sk :: rest =>
    match E.pseudoKeyFromSlice sk with
    | none => .invalidValue
    | some k =>
      match decodeGasSpendingKeys E rest with
      | .ok ks => .ok (k :: ks)
      | .decodeErr => .decodeErr
      | .invalidValue => .invalidValue
      | .panics r => .panics r

/-- Model of shielded_transfer_tx_args, returning the decode outcome together
with the console log entries the call emitted. -/
def shielded_transfer_tx_args (E : Externals) (shielded_transfer_msg tx_msg : List Nat) :
    Outcome TxShieldedTransfer × List LogEntry :=
  match tryFromSlice readShieldedTransferMsg shielded_transfer_msg with
  | none => (.decodeErr, [])
  | some m =>
    match decodeShieldedData E m.data with
    | (.ok data, lg) =>
      (match tx_msg_into_args E tx_msg with
       | .ok tx =>
         (match decodeGasSpendingKeys E m.gas_spending_keys with
          | .ok gsk => (.ok ⟨data, tx, "tx_transfer.wasm", false, gsk⟩, lg)
          | .decodeErr => (.decodeErr, lg)
          | .invalidValue => (.invalidValue, lg)
          | .panics r => (.panics r, lg))
       | .decodeErr => (.decodeErr, lg)
       | .invalidValue => (.invalidValue, lg)
       | .panics r => (.panics r, lg))
    | (.decodeErr, lg) => (.decodeErr, lg)
    | (.invalidValue, lg) => (.invalidValue, lg)
    | (.panics r, lg) => (.panics r, lg)

/-- One decoded unshielding transfer leg (args::TxUnshieldingTransferData). -/
structure TxUnshieldingTransferData where
  target : Address
  token : Address
  amount : InputAmount
deriving DecidableEq

/-- args::TxUnshieldingTransfer. -/
structure TxUnshieldingTransfer where
  data : List TxUnshieldingTransferData
  source : PseudoExtendedKey
  tx : TxArgs
  gas_spending_keys : List PseudoExtendedKey
  disposable_signing_key : Bool
  tx_code_path : String
deriving DecidableEq

/-- The per-leg loop of unshielding_transfer_tx_args. -/
def decodeUnshieldingData (E : Externals) :
    List UnshieldingTransferDataMsg → Outcome (List TxUnshieldingTransferData)
  | [] => .ok []
  | t :: rest =>
    match E.addressFromStr t.target with
    | none => .invalidValue
    | some target =>
    match E.addressFromStr t.token with
    | none => .invalidValue
    | some token =>
    match E.denomAmountFromStr t.amount with
    | none => .panics .amountInvalid
    | some d =>
      match decodeUnshieldingData E rest with
      | .ok ds => .ok (⟨target, token, .unvalidated d⟩ :: ds)
      | .decodeErr => .decodeErr
      | .invalidValue => .invalidValue
      | .panics r => .panics r

/-- Body of unshielding_transfer_tx_args after the borsh decode of the kind
payload: parse the source key, run the per-leg loop, build the envelope, and
assemble the descriptor.  The gas_spending_keys field of the message is not
read; the descriptor carries an empty gas-spending-key list. -/
def unshieldingFromMsg (E : Externals) (m : UnshieldingTransferMsg) (tx_msg : List Nat) :
    Outcome TxUnshieldingTransfer :=
  match E.pseudoKeyFromSlice m.source with
  | none => .invalidValue
  | some source =>
    match decodeUnshieldingData E m.data with
    | .ok data =>
      match tx_msg_into_args E tx_msg with
      | .ok tx => .ok ⟨data, source, tx, [], false, "tx_transfer.wasm"⟩
      | .decodeErr => .decodeErr
      | .invalidValue => .invalidValue
      | .panics r => .panics r
    | .decodeErr => .decodeErr
    | .invalidValue => .invalidValue
    | .panics r => .panics r

/-- Model of unshielding_transfer_tx_args. -/
def unshielding_transfer_tx_args (E : Externals) (unshielding_transfer_msg tx_msg : List Nat) :
    Outcome TxUnshieldingTransfer :=
  match tryFromSlice readUnshieldingTransferMsg unshielding_transfer_msg with
  | none => .decodeErr
  | some m => unshieldingFromMsg E m tx_msg

/-! ## Transaction sections and the shielded builder metadata -/

/-- The MASP builder section: the number of sapling inputs recorded by the
builder, and the spend metadata mapping construction index i to the final
serialized position (spend_index i is entry i of the metadata list, absent
once i runs past its end). -/
structure MaspBuilder where
  saplingInputsLen : Nat
  metadata : List Nat
deriving DecidableEq

/-- A transaction section: a MASP transaction (keyed by its section hash), a
MASP builder (keyed likewise), or any other section kind, untouched by the
engine. -/
inductive Section
  | maspTx (h : Nat) (m : MaspTransaction)
  | maspBuilder (h : Nat) (b : MaspBuilder)
  | other (n : Nat)
deriving DecidableEq

/-- A transaction: its list of sections. -/
structure Tx where
  sections : List Section
deriving DecidableEq

/-- Model of Tx.get_masp_section: the first MASP transaction section with the
given hash. -/
def getMaspSection (tx : Tx) (h : Nat) : Option MaspTransaction :=
  tx.sections.findSome? fun s =>
    match s with
    | .maspTx h2 m => if h2 == h then some m else none
    | _ => none

/-- Model of Tx.get_masp_builder: the first MASP builder section with the
given hash. -/
def getMaspBuilder (tx : Tx) (h : Nat) : Option MaspBuilder :=
  tx.sections.findSome? fun s =>
    match s with
    | .maspBuilder h2 b => if h2 == h then some b else none
    | _ => none

/-- Model of Tx.remove_masp_section: drop the MASP transaction sections with
the given hash, keeping everything else. -/
def removeMaspSection (tx : Tx) (h : Nat) : Tx :=
  ⟨tx.sections.filter fun s =>
    match s with
    | .maspTx h2 _ => h2 != h
    | _ => true⟩

/-- Model of Tx.add_section: append the section. -/
def addSection (tx : Tx) (s : Section) : Tx :=
  ⟨tx.sections ++ [s]⟩

/-- The signing context handed to masp_sign; the engine reads only the
confidential-section identifier. -/
structure SigningTxData where
  shielded_hash : Option Nat
deriving DecidableEq

/-! ## Build Parameter Provider -/

/-- The BuildParams capability the engine consumes: the per-spend blinding
factor for each descriptor position. -/
structure BuildParamsM where
  spendAlpha : Nat → Nat

/-- RngBuildParams seeded from a randomness stream: the blinding factor for
spend index i is the i-th fresh draw of the stream. -/
def rngBuildParams (stream : Nat → Nat) : BuildParamsM :=
  ⟨stream⟩

/-- Model of generate_masp_build_params: the three count arguments are unused;
a device-backed envelope yields the unsupported error, otherwise an
RngBuildParams provider seeded from the OS randomness source. -/
def generate_masp_build_params (_spend_len _convert_len _output_len : Nat)
    (args : TxArgs) (osRng : Nat → Nat) : Except String BuildParamsM :=
  if args.use_device then
    .error "Device not supported"
  else
    .ok (rngBuildParams osRng)

/-! ## Signature Authorization Mapper -/

/-- The authorization map: spend position to produced signature (the HashMap
in the source, modelled as an association list keyed by position). -/
abbrev AuthMap := List (Nat × SpendSignature)

/-- Lookup in the authorization map. -/
def lookupAuth (m : AuthMap) (pos : Nat) : Option SpendSignature :=
  (m.find? fun e => e.1 == pos).map Prod.snd

/-- The MapSaplingSigAuth adapter wrapping an authorization map. -/
structure MapSaplingSigAuth where
  auths : AuthMap

/-- map_proof: the identity on proofs. -/
def MapSaplingSigAuth.map_proof (_mp : MapSaplingSigAuth) (p : Nat) (_pos : Nat) : Nat :=
  p

/-- map_auth_sig: substitute the map entry for the position when present,
otherwise keep the existing signature. -/
def MapSaplingSigAuth.map_auth_sig (mp : MapSaplingSigAuth) (s : SpendSignature)
    (pos : Nat) : SpendSignature :=
  (lookupAuth mp.auths pos).getD s

/-- map_authorization: the identity on the bundle-level authorization. -/
def MapSaplingSigAuth.map_authorization (_mp : MapSaplingSigAuth) (a : Nat) : Nat :=
  a

/-- Applying the mapper across a MASP transaction: every spend descriptor at
position pos has its proof passed through map_proof and its signature through
map_auth_sig; the bundle authorization goes through map_authorization; the
rest of the content is untouched. -/
def applyMapAuth (mp : MapSaplingSigAuth) (t : MaspTransaction) : MaspTransaction :=
  { spends := t.spends.enum.map fun pe =>
      { proof := mp.map_proof pe.2.proof pe.1
        spendAuthSig := mp.map_auth_sig pe.2.spendAuthSig pe.1 }
    bundleAuth := mp.map_authorization t.bundleAuth
    rest := t.rest }

/-! ## Shielded Transaction Authorization Engine: masp_sign -/

/-- The extended-spending-key string hardcoded in the body of masp_sign. -/
def hardcodedXsk : String :=
  "zsknam1q00j7ewuqqqqpq8gz8yvtpx226gg7nhw9vrmyvp3ay2gnjtp3xg86lsvtc7ng9nsk9lrjlutm77ghgsewqhrxu32ns054sthl4qeprppxahze0pmthmqzjqa2pmzp0xy9hnqmnkwswygf875ra4ksllyp63r6rjze2n8cwsy355fhc2lq0hyfsa2ehsflrumwkx5tqkq992g8p0af4zw7cx94mdntgvkacrs9r3j45fdsjc209f7p79lzz6mr5vdk3fqt4jkkjlckmc3ckwpk"

/-- Result of a signing call: the (possibly replaced) transaction on success,
or a panic.  The source function never returns an error value. -/
inductive SignResult
  | ok (t : Tx)
  | panics (r : PanicReason)
deriving DecidableEq

/-- Write v at index pos of the list, or fail when pos is out of bounds (the
source indexes a vector, which panics out of bounds). -/
def writeAt (l : List Nat) (pos v : Nat) : Option (List Nat) :=
  if pos < l.length then some (l.set pos v) else none

/-- The descriptor-map fill loop: for each construction index i with a
recorded serialized position, write i at that position. -/
def buildDescriptorMapAux (dm : List Nat) : List (Nat × Nat) → Option (List Nat)
  | [] => some dm
  | (i, pos) :: rest =>
    match writeAt dm pos i with
    | none => none
    | some dm2 => buildDescriptorMapAux dm2 rest

/-- Model of the metadata inversion in masp_sign: start from a zero vector of
the sapling-input count and scan construction indices 0, 1, ... while the
metadata knows them, writing each index at its serialized position; none
models the out-of-bounds panic. -/
def buildDescriptorMap (metadata : List Nat) (len : Nat) : Option (List Nat) :=
  buildDescriptorMapAux (List.replicate len 0) metadata.enum

/-- The signing loop of masp_sign: for every position of the descriptor map,
a spend signature over the given sighash, using the spend-authorizing secret
derived from the hardcoded extended-spending-key string and the blinding
factor the provider hands out for that position. -/
def maspAuthorizations (bp : BuildParamsM) (sighash : SigHash) (n : Nat) : AuthMap :=
  (List.range n).map fun p =>
    (p, SpendSignature.spendSigOf (.fromXskString hardcodedXsk) (bp.spendAlpha p) sighash)

/-- Model of masp_sign.  Returns the signing result together with the console
log entries the call emitted (the hardcoded key debug log and one entry per
MASP transaction section of the input). -/
def masp_sign (tx : Tx) (signing_data : SigningTxData) (bparams : BuildParamsM) :
    SignResult × List LogEntry :=
  match signing_data.shielded_hash with
  | none => (.ok tx, [])
  | some shielded_hash =>
    match getMaspSection tx shielded_hash with
    | none => (.panics .missingMaspSection, [])
    | some masp_tx =>
      match getMaspBuilder tx shielded_hash with
      | none => (.panics .missingMaspBuilder, [])
      | some masp_builder =>
        match buildDescriptorMap masp_builder.metadata masp_builder.saplingInputsLen with
        | none => (.panics .indexOutOfBounds, [])
        | some descriptor_map =>
          let unauth_tx_data := deauthorize masp_tx
          let sighash := signatureHash unauth_tx_data
          let xskLog := [LogEntry.xskDebug hardcodedXsk]
          let authorizations := maspAuthorizations bparams sighash descriptor_map.length
          let sectionLogs := tx.sections.filterMap fun s =>
            match s with
            | .maspTx _ d => some (LogEntry.maspTxOld d)
            | _ => none
          let newMasp := applyMapAuth ⟨authorizations⟩ masp_tx
          let tx2 := addSection (removeMaspSection tx shielded_hash)
            (.maspTx shielded_hash newMasp)
          (.ok tx2, xskLog ++ sectionLogs)

/-! ## Concrete fixtures used by witnesses and counterexamples -/

/-- A concrete external-parser instantiation: every parser accepts and tags
its input; key deserialization records the byte length as the view key. -/
def extAccepting : Externals :=
  { addressFromStr := fun _ => some ⟨1⟩
    paymentAddressFromStr := fun _ => some ⟨2⟩
    denomAmountFromStr := fun _ => some ⟨3⟩
    publicKeyFromStr := fun _ => some ⟨4⟩
    gasLimitFromStr := fun _ => some ⟨5⟩
    pseudoKeyFromSlice := fun b => some ⟨b.length, none⟩ }

/-- extAccepting with a denominated-amount parser that rejects everything. -/
def extBadAmount : Externals :=
  { extAccepting with denomAmountFromStr := fun _ => none }

/-- Borsh bytes of a WrapperTxMsg with single-character fields and no public
key or memo. -/
def wrapperBytesNoPk : List Nat :=
  [1, 0, 0, 0, 97, 1, 0, 0, 0, 49, 1, 0, 0, 0, 50, 1, 0, 0, 0, 99, 0, 0]

/-- The WrapperTxMsg encoded by wrapperBytesNoPk. -/
def wrapperMsgNoPk : WrapperTxMsg :=
  ⟨[97], [49], [50], [99], none, none⟩

/-- Borsh bytes of a WrapperTxMsg like wrapperBytesNoPk but with a public key
present. -/
def wrapperBytesWithPk : List Nat :=
  [1, 0, 0, 0, 97, 1, 0, 0, 0, 49, 1, 0, 0, 0, 50, 1, 0, 0, 0, 99, 1, 1, 0, 0, 0, 107, 0]

/-- The WrapperTxMsg encoded by wrapperBytesWithPk. -/
def wrapperMsgWithPk : WrapperTxMsg :=
  ⟨[97], [49], [50], [99], some [107], none⟩

/-- The args::Tx value tx_msg_into_args builds from wrapperBytesNoPk under
extAccepting. -/
def txArgsNoPk : TxArgs :=
  { dry_run := false
    dry_run_wrapper := false
    dump_tx := false
    force := false
    broadcast_only := false
    ledger_address := "http://notinuse:13337"
    wallet_alias_force := false
    initialized_account_alias := none
    fee_amount := some (.unvalidated ⟨3⟩)
    fee_token := ⟨1⟩
    gas_limit := ⟨5⟩
    wrapper_fee_payer := none
    output_folder := none
    expiration := .default
    chain_id := some [99]
    signatures := []
    signing_keys := []
    tx_reveal_code_path := "tx_reveal_pk.wasm"
    use_device := false
    password := none
    memo := none }

/-- txArgsNoPk with the single-element signer-key list. -/
def txArgsWithPk : TxArgs :=
  { txArgsNoPk with signing_keys := [⟨4⟩] }

/-- Borsh bytes of a TransparentTransferMsg with one leg of single-character
fields. -/
def transparentOneLegBytes : List Nat :=
  [1, 0, 0, 0, 1, 0, 0, 0, 97, 1, 0, 0, 0, 98, 1, 0, 0, 0, 99, 1, 0, 0, 0, 120]

/-- Borsh bytes of a ShieldedTransferMsg with one leg (source key bytes [9])
and no gas spending keys. -/
def shieldedOneLegBytes : List Nat :=
  [1, 0, 0, 0, 1, 0, 0, 0, 9, 1, 0, 0, 0, 116, 1, 0, 0, 0, 107, 1, 0, 0, 0, 49, 0, 0, 0, 0]

/-- Borsh bytes of a ClaimRewardsMsg with a present source field. -/
def claimRewardsWithSourceBytes : List Nat :=
  [1, 0, 0, 0, 118, 1, 1, 0, 0, 0, 115]

/-- A one-spend MASP transaction fixture. -/
def maspTx1 : MaspTransaction :=
  ⟨[⟨7, .placeholder 1⟩], 3, 9⟩

/-- A builder fixture for maspTx1: one sapling input at position 0. -/
def maspBuilder1 : MaspBuilder :=
  ⟨1, [0]⟩

/-- A transaction holding maspTx1 and its builder under section hash 5. -/
def txWithMasp : Tx :=
  ⟨[.maspTx 5 maspTx1, .maspBuilder 5 maspBuilder1]⟩

/-- A transaction holding maspTx1 under hash 5 but no builder. -/
def txNoBuilder : Tx :=
  ⟨[.maspTx 5 maspTx1]⟩

/-- A provider fixture with blinding factor i + 100 at position i. -/
def bp100 : BuildParamsM :=
  ⟨fun i => i + 100⟩

/-- A provider fixture with all-zero blinding factors. -/
def bpZero : BuildParamsM :=
  ⟨fun _ => 0⟩

/-! ## Theorems -/

/-- Claim C6: if the signing context contains no confidential-section
identifier, masp_sign returns success, leaves the transaction completely
unchanged, and performs no logging. -/
theorem maspSign_no_shielded_hash_noop :
    ∀ (tx : Tx) (bp : BuildParamsM), masp_sign tx ⟨none⟩ bp = (.ok tx, []) :=
  fun _ _ => rfl

/-- Claim C7: the Signature Authorization Mapper substitutes the map entry for
a position when one exists, keeps the existing signature when none exists, and
passes every proof and the bundle-level authorization value through as the
identity; applying it across a MASP transaction leaves all proofs, the bundle
authorization and the rest of the content unchanged. -/
theorem mapSaplingSigAuth_substitutes_by_position :
    ∀ (mp : MapSaplingSigAuth) (p pos a : Nat) (s : SpendSignature) (t : MaspTransaction),
      mp.map_proof p pos = p ∧
      mp.map_authorization a = a ∧
      (∀ sig, lookupAuth mp.auths pos = some sig → mp.map_auth_sig s pos = sig) ∧
      (lookupAuth mp.auths pos = none → mp.map_auth_sig s pos = s) ∧
      (applyMapAuth mp t).spends.map SpendDescription.proof =
        t.spends.map SpendDescription.proof ∧
      (applyMapAuth mp t).bundleAuth = t.bundleAuth ∧
      (applyMapAuth mp t).rest = t.rest := by
  intro mp p pos a s t
  refine ⟨rfl, rfl, ?_, ?_, ?_, rfl, rfl⟩
  · intro sig h
    unfold MapSaplingSigAuth.map_auth_sig
    rw [h]
    rfl
  · intro h
    unfold MapSaplingSigAuth.map_auth_sig
    rw [h]
    rfl
  · show (t.spends.enum.map _).map _ = _
    rw [List.map_map]
    have h2 : (SpendDescription.proof ∘ fun pe : Nat × SpendDescription =>
        SpendDescription.mk (mp.map_proof pe.2.proof pe.1)
          (mp.map_auth_sig pe.2.spendAuthSig pe.1)) =
        (SpendDescription.proof ∘ Prod.snd) := rfl
    rw [h2, ← List.map_map, List.enum_map_snd]

/-- Witness for claim C7 at a concrete map, a covered and an uncovered
position. -/
theorem mapSaplingSigAuth_substitutes_by_position_witness :
    MapSaplingSigAuth.map_auth_sig ⟨[(0, .placeholder 5)]⟩ (.placeholder 9) 0 =
      .placeholder 5 ∧
    MapSaplingSigAuth.map_auth_sig ⟨[(0, .placeholder 5)]⟩ (.placeholder 9) 1 =
      .placeholder 9 := by
  have h1 := mapSaplingSigAuth_substitutes_by_position ⟨[(0, .placeholder 5)]⟩ 0 0 0
    (.placeholder 9) maspTx1
  have h2 := mapSaplingSigAuth_substitutes_by_position ⟨[(0, .placeholder 5)]⟩ 0 1 0
    (.placeholder 9) maspTx1
  exact ⟨h1.2.2.1 (.placeholder 5) rfl, h2.2.2.2.1 rfl⟩

/-- Claim C8: generate_masp_build_params returns the unsupported error exactly
when the envelope requests device-backed signing, otherwise a provider seeded
from the OS randomness source, independently of the three count arguments. -/
theorem generate_masp_build_params_spec :
    ∀ (sl cl ol sl2 cl2 ol2 : Nat) (args : TxArgs) (rng : Nat → Nat),
      ((∃ e, generate_masp_build_params sl cl ol args rng = .error e) ↔
        args.use_device = true) ∧
      (args.use_device = false →
        generate_masp_build_params sl cl ol args rng = .ok (rngBuildParams rng)) ∧
      generate_masp_build_params sl cl ol args rng =
        generate_masp_build_params sl2 cl2 ol2 args rng := by
  intro sl cl ol sl2 cl2 ol2 args rng
  unfold generate_masp_build_params
  rcases h : args.use_device <;> simp [h]

/-- Witness for claim C8: a non-device envelope yields the RngBuildParams
provider. -/
theorem generate_masp_build_params_spec_witness :
    generate_masp_build_params 0 0 0 txArgsNoPk (fun i => i) =
      .ok (rngBuildParams (fun i => i)) :=
  (generate_masp_build_params_spec 0 0 0 1 2 3 txArgsNoPk (fun i => i)).2.1 rfl

/-- Claim C3: in one invocation of the authorization engine, the signature for
spend position p is blinded with the draw the provider hands out for p (one
draw per descriptor position), so whenever the randomness stream backing the
RngBuildParams provider is collision-free, two distinct descriptor positions
are signed with distinct blinding factors, even though every descriptor is
signed by the same secret. -/
theorem maspSign_blinding_factors_distinct :
    ∀ (stream : Nat → Nat) (sh : SigHash) (n p q : Nat) (kp kq : AskSource)
      (ap aq : Nat) (hp hq : SigHash),
      Function.Injective stream →
      (p, SpendSignature.spendSigOf kp ap hp) ∈
        maspAuthorizations (rngBuildParams stream) sh n →
      (q, SpendSignature.spendSigOf kq aq hq) ∈
        maspAuthorizations (rngBuildParams stream) sh n →
      p ≠ q →
      ap = stream p ∧ aq = stream q ∧ ap ≠ aq := by
  intro stream sh n p q kp kq ap aq hp hq hinj hmp hmq hne
  unfold maspAuthorizations rngBuildParams at hmp hmq
  simp only [List.mem_map, List.mem_range] at hmp hmq
  obtain ⟨x, _, hxe⟩ := hmp
  obtain ⟨y, _, hye⟩ := hmq
  rw [Prod.mk.injEq] at hxe hye
  obtain ⟨hx1, hx2⟩ := hxe
  obtain ⟨hy1, hy2⟩ := hye
  subst hx1
  subst hy1
  rw [SpendSignature.spendSigOf.injEq] at hx2 hy2
  refine ⟨hx2.2.1.symm, hy2.2.1.symm, ?_⟩
  intro hcontra
  apply hne
  apply hinj
  rw [hx2.2.1, hy2.2.1]
  exact hcontra

/-- Witness for claim C3 with the collision-free stream adding 100, two spend
positions, and the engine invocation at the one-spend fixture hash. -/
theorem maspSign_blinding_factors_distinct_witness :
    (100 : Nat) = 100 ∧ (101 : Nat) = 101 ∧ (100 : Nat) ≠ 101 := by
  have hinj : Function.Injective (fun i : Nat => i + 100) := by
    intro a b h
    simpa using h
  have hm0 : ((0 : Nat), SpendSignature.spendSigOf (.fromXskString hardcodedXsk) 100 ⟨[7], 9⟩) ∈
      maspAuthorizations (rngBuildParams (fun i => i + 100)) ⟨[7], 9⟩ 2 := by
    unfold maspAuthorizations
    exact List.mem_map.mpr ⟨0, List.mem_range.mpr (by omega), rfl⟩
  have hm1 : ((1 : Nat), SpendSignature.spendSigOf (.fromXskString hardcodedXsk) 101 ⟨[7], 9⟩) ∈
      maspAuthorizations (rngBuildParams (fun i => i + 100)) ⟨[7], 9⟩ 2 := by
    unfold maspAuthorizations
    exact List.mem_map.mpr ⟨1, List.mem_range.mpr (by omega), rfl⟩
  exact maspSign_blinding_factors_distinct (fun i => i + 100) ⟨[7], 9⟩ 2 0 1
    (.fromXskString hardcodedXsk) (.fromXskString hardcodedXsk) 100 101 ⟨[7], 9⟩ ⟨[7], 9⟩
    hinj hm0 hm1 (by omega)

/-- Claim C10: the unshielding decoder ignores the payload gas-spending-key
field entirely: the accepted descriptor always carries an empty
gas-spending-key list, and the decode outcome is invariant under replacing the
gas-spending-key bytes, so malformed gas-key bytes can never make the decode
fail. -/
theorem unshielding_gas_spending_keys_ignored :
    ∀ (E : Externals) (kb xb : List Nat) (args : TxUnshieldingTransfer)
      (m : UnshieldingTransferMsg) (gsk2 : List (List Nat)),
      (unshielding_transfer_tx_args E kb xb = .ok args →
        args.gas_spending_keys = []) ∧
      unshieldingFromMsg E m xb =
        unshieldingFromMsg E ⟨m.source, m.data, gsk2⟩ xb := by
  intro E kb xb args m gsk2
  constructor
  · intro h
    unfold unshielding_transfer_tx_args at h
    split at h
    · cases h
    rename_i m2 _
    unfold unshieldingFromMsg at h
    split at h
    · cases h
    split at h
    · split at h
      · rw [Outcome.ok.injEq] at h
        subst h
        rfl
      · cases h
      · cases h
      · cases h
    · cases h
    · cases h
    · cases h
  · cases m
    rfl

/-- Witness for claim C10: a concrete accepted unshielding payload yields the
empty gas-spending-key list. -/
theorem unshielding_gas_spending_keys_ignored_witness :
    (TxUnshieldingTransfer.mk [] ⟨1, none⟩ txArgsNoPk [] false "tx_transfer.wasm").gas_spending_keys
      = [] :=
  (unshielding_gas_spending_keys_ignored extAccepting
    [1, 0, 0, 0, 9, 0, 0, 0, 0, 0, 0, 0, 0] wrapperBytesNoPk
    ⟨[], ⟨1, none⟩, txArgsNoPk, [], false, "tx_transfer.wasm"⟩
    ⟨[9], [], []⟩ [[1, 2]]).1 rfl

/-- Claim C9: for every envelope payload the Common Envelope Builder decodes
successfully, the signer-key list of the resulting envelope is exactly the
single-element list of the decoded public key when the payload carries one,
and exactly empty when the public-key field is absent. -/
theorem tx_msg_into_args_signing_keys :
    ∀ (E : Externals) (txb : List Nat) (m : WrapperTxMsg) (t : TxArgs),
      tryFromSlice readWrapperTxMsg txb = some m →
      tx_msg_into_args E txb = .ok t →
      (m.public_key = none → t.signing_keys = []) ∧
      (∀ s, m.public_key = some s →
        ∃ pk, E.publicKeyFromStr s = some pk ∧ t.signing_keys = [pk]) := by
  intro E txb m t hdec hok
  unfold tx_msg_into_args finishTxArgs at hok
  split at hok
  · cases hok
  rename_i m2 hm2
  rw [hdec, Option.some.injEq] at hm2
  subst hm2
  split at hok
  · cases hok
  split at hok
  · cases hok
  split at hok
  · -- public key present in the payload
    rename_i v hpkv
    split at hok
    · cases hok
    rename_i pk hpkparse
    split at hok
    · cases hok
    rw [Outcome.ok.injEq] at hok
    subst hok
    constructor
    · intro hnone
      rw [hnone] at hpkv
      cases hpkv
    · intro s hs
      rw [hs, Option.some.injEq] at hpkv
      subst hpkv
      exact ⟨pk, hpkparse, rfl⟩
  · -- public key absent from the payload
    rename_i hpkn
    split at hok
    · cases hok
    rw [Outcome.ok.injEq] at hok
    subst hok
    refine ⟨fun _ => rfl, fun s hs => ?_⟩
    rw [hpkn] at hs
    cases hs

/-- Witness for claim C9: both the absent-key and present-key envelope
payloads, evaluated concretely. -/
theorem tx_msg_into_args_signing_keys_witness :
    txArgsNoPk.signing_keys = [] ∧ txArgsWithPk.signing_keys = [⟨4⟩] := by
  have h1 := (tx_msg_into_args_signing_keys extAccepting wrapperBytesNoPk
    wrapperMsgNoPk txArgsNoPk (by decide) rfl).1 rfl
  have h2 := (tx_msg_into_args_signing_keys extAccepting wrapperBytesWithPk
    wrapperMsgWithPk txArgsWithPk (by decide) rfl).2 [107] rfl
  obtain ⟨pk, hpk, hkeys⟩ := h2
  have hpk4 : pk = (⟨4⟩ : PublicKey) := by
    rw [show extAccepting.publicKeyFromStr [107] = some ⟨4⟩ from rfl,
      Option.some.injEq] at hpk
    exact hpk.symm
  exact ⟨h1, by rw [hkeys, hpk4]⟩

/-- Helper: the only panic sites of the Common Envelope Builder are the fee
amount expect and the gas limit expect. -/
theorem tx_msg_into_args_panic_sites :
    ∀ (E : Externals) (xb : List Nat) (r : PanicReason),
      tx_msg_into_args E xb = .panics r →
      (∃ s, r = .feeAmountInvalid s) ∨ r = .gasLimitInvalid := by
  intro E xb r h
  unfold tx_msg_into_args finishTxArgs at h
  split at h
  · cases h
  split at h
  · cases h
  split at h
  · rw [Outcome.panics.injEq] at h
    exact Or.inl ⟨_, h.symm⟩
  split at h
  · split at h
    · cases h
    split at h
    · rw [Outcome.panics.injEq] at h
      exact Or.inr h.symm
    · cases h
  · split at h
    · rw [Outcome.panics.injEq] at h
      exact Or.inr h.symm
    · cases h

/-- Helper: the only panic site of the transparent per-leg loop is the amount
expect. -/
theorem decodeTransparentData_panic_site :
    ∀ (E : Externals) (l : List TransparentTransferDataMsg) (r : PanicReason),
      decodeTransparentData E l = .panics r → r = .amountInvalid := by
  intro E l
  induction l with
  | nil =>
    intro r h
    cases h
  | cons t rest ih =>
    intro r h
    unfold decodeTransparentData at h
    split at h
    · cases h
    split at h
    · cases h
    split at h
    · cases h
    split at h
    · rw [Outcome.panics.injEq] at h
      exact h.symm
    split at h
    · cases h
    · cases h
    · cases h
    · rename_i r2 hrec
      rw [Outcome.panics.injEq] at h
      rw [← h]
      exact ih r2 hrec

/-- Helper: the panic sites reachable from transparent_transfer_tx_args. -/
theorem transparent_transfer_panic_sites :
    ∀ (E : Externals) (kb xb : List Nat) (r : PanicReason),
      transparent_transfer_tx_args E kb xb = .panics r →
      r = .amountInvalid ∨ (∃ s, r = .feeAmountInvalid s) ∨ r = .gasLimitInvalid := by
  intro E kb xb r h
  unfold transparent_transfer_tx_args at h
  split at h
  · cases h
  split at h
  · split at h
    · cases h
    · cases h
    · cases h
    · rename_i r2 hrec
      rw [Outcome.panics.injEq] at h
      rw [← h]
      exact Or.inr (tx_msg_into_args_panic_sites E xb r2 hrec)
  · cases h
  · cases h
  · rename_i r2 hleg
    rw [Outcome.panics.injEq] at h
    rw [← h]
    exact Or.inl (decodeTransparentData_panic_site E _ r2 hleg)

/-- Helper: the panic sites reachable from claim_rewards_tx_args. -/
theorem claim_rewards_panic_sites :
    ∀ (E : Externals) (kb xb : List Nat) (r : PanicReason),
      claim_rewards_tx_args E kb xb = .panics r →
      r = .claimSourceInvalid ∨ (∃ s, r = .feeAmountInvalid s) ∨ r = .gasLimitInvalid := by
  intro E kb xb r h
  unfold claim_rewards_tx_args at h
  split at h
  · cases h
  split at h
  · split at h
    · cases h
    split at h
    · cases h
    · split at h
      · rw [Outcome.panics.injEq] at h
        exact Or.inl h.symm
      · cases h
  · cases h
  · cases h
  · rename_i r2 hrec
    rw [Outcome.panics.injEq] at h
    rw [← h]
    exact Or.inr (tx_msg_into_args_panic_sites E xb r2 hrec)

/-- Claim C5, counterexample: a structurally well-formed transparent-transfer
payload whose amount string fails domain validation makes the decoder panic at
the amount expect instead of returning an InvalidValueError, and a
structurally well-formed claim-rewards payload with a present but invalid
source address makes that decoder panic at the source expect. -/
theorem decoder_panics_on_invalid_field_cex :
    transparent_transfer_tx_args extBadAmount transparentOneLegBytes wrapperBytesNoPk =
      .panics .amountInvalid ∧
    claim_rewards_tx_args
      { extAccepting with addressFromStr := fun s => if s = [115] then none else some ⟨1⟩ }
      claimRewardsWithSourceBytes wrapperBytesNoPk = .panics .claimSourceInvalid := by
  constructor
  · rfl
  · rfl

/-- Claim C5, amended: for the transparent-transfer and claim-rewards
decoders, a structurally malformed payload yields a returned DecodeError, and
any panic comes only from the expect sites in the source (an invalid amount
string in a transfer leg, an invalid fee amount or gas limit in the envelope,
or a present-but-invalid claim-rewards source address); every other domain
validation failure is a returned error. -/
theorem decoders_return_errors_or_panic_at_expect :
    ∀ (E : Externals) (kb xb : List Nat),
      (tryFromSlice readTransparentTransferMsg kb = none →
        transparent_transfer_tx_args E kb xb = .decodeErr) ∧
      (∀ r, transparent_transfer_tx_args E kb xb = .panics r →
        r = .amountInvalid ∨ (∃ s, r = .feeAmountInvalid s) ∨ r = .gasLimitInvalid) ∧
      (tryFromSlice readClaimRewardsMsg kb = none →
        claim_rewards_tx_args E kb xb = .decodeErr) ∧
      (∀ r, claim_rewards_tx_args E kb xb = .panics r →
        r = .claimSourceInvalid ∨ (∃ s, r = .feeAmountInvalid s) ∨ r = .gasLimitInvalid) := by
  intro E kb xb
  refine ⟨?_, fun r => transparent_transfer_panic_sites E kb xb r, ?_,
    fun r => claim_rewards_panic_sites E kb xb r⟩
  · intro hmal
    unfold transparent_transfer_tx_args
    rw [hmal]
  · intro hmal
    unfold claim_rewards_tx_args
    rw [hmal]

/-- Witness for the amended claim C5: a truncated payload yields the returned
DecodeError for both decoders. -/
theorem decoders_return_errors_or_panic_at_expect_witness :
    transparent_transfer_tx_args extAccepting [99] wrapperBytesNoPk = .decodeErr ∧
    claim_rewards_tx_args extAccepting [99] wrapperBytesNoPk = .decodeErr := by
  have h := decoders_return_errors_or_panic_at_expect extAccepting [99] wrapperBytesNoPk
  exact ⟨h.1 rfl, h.2.2.1 rfl⟩

/-- Claim C4, counterexample: when the signing context names section hash 0
but the transaction has no sections at all, masp_sign panics at the expect on
the missing MASP section; it does not return a typed error (the source
function has no error return on this path at all). -/
theorem maspSign_missing_section_panics_cex :
    masp_sign ⟨[]⟩ ⟨some 0⟩ bpZero = (.panics .missingMaspSection, []) := rfl

/-- Claim C4, amended: when the signing context names a confidential-section
identifier but the transaction lacks the corresponding MASP section, or has
the section but lacks the paired builder metadata, masp_sign aborts with a
panic at the corresponding expect (with the message naming the missing piece)
rather than returning a typed error. -/
theorem maspSign_missing_section_panics :
    ∀ (tx : Tx) (bp : BuildParamsM) (h : Nat),
      (getMaspSection tx h = none →
        masp_sign tx ⟨some h⟩ bp = (.panics .missingMaspSection, [])) ∧
      (getMaspSection tx h ≠ none → getMaspBuilder tx h = none →
        masp_sign tx ⟨some h⟩ bp = (.panics .missingMaspBuilder, [])) := by
  intro tx bp h
  constructor
  · intro hsec
    simp only [masp_sign, hsec]
  · intro hsec hbld
    rcases hm : getMaspSection tx h with _ | m
    · exact absurd hm hsec
    simp only [masp_sign, hm, hbld]

/-- Witness for the amended claim C4: the empty transaction panics on the
missing section, and the builderless fixture panics on the missing builder. -/
theorem maspSign_missing_section_panics_witness :
    masp_sign (⟨[]⟩ : Tx) ⟨some 0⟩ bpZero = (.panics .missingMaspSection, []) ∧
    masp_sign txNoBuilder ⟨some 5⟩ bpZero = (.panics .missingMaspBuilder, []) := by
  have h1 := (maspSign_missing_section_panics ⟨[]⟩ bpZero 0).1 rfl
  have h2 := (maspSign_missing_section_panics txNoBuilder bpZero 5).2 (by decide) rfl
  exact ⟨h1, h2⟩

/-- Claim C1: evaluated at a transaction with one spend descriptor, masp_sign
produces a spend signature whose authorizing secret is derived from the
extended-spending-key string hardcoded in the function body; no caller key
material enters the call (the function takes none), contradicting both the
claim and the source doc comment about hardware-wallet-hosted keys. -/
theorem maspSign_signs_with_hardcoded_key :
    (masp_sign txWithMasp ⟨some 5⟩ bp100).1 =
      .ok ⟨[.maspBuilder 5 maspBuilder1,
            .maspTx 5 ⟨[⟨7, .spendSigOf (.fromXskString hardcodedXsk) 100 ⟨[7], 9⟩⟩],
              3, 9⟩]⟩ := rfl

/-- Claim C2: key material is logged.  Decoding a shielded transfer with one
leg emits a console log of the deserialized and augmented spending key, and a
masp_sign invocation logs the parsed hardcoded extended spending key and every
MASP transaction section. -/
theorem key_material_logged_to_console :
    (shielded_transfer_tx_args extAccepting shieldedOneLegBytes wrapperBytesNoPk).2 =
      [.sourceKey ⟨1, some 0⟩] ∧
    (masp_sign txWithMasp ⟨some 5⟩ bp100).2 =
      [.xskDebug hardcodedXsk, .maspTxOld maspTx1] := by
  constructor
  · rfl
  · rfl

end ArgsModel
